import Mathlib

/-!
Shallow embedding of the msm8660-common device HAL sources
(`liblights/lights.c` and `libsensors/sensors.cpp`) and proofs of the
specification's claims about them.  External effects (file opens, driver
calls, the wake pipe, sleeps) are made explicit: fallible calls take an
oracle describing their outcome, and side effects are recorded in an
ordered action trace.
-/

namespace Lights

/-- Control-file path for the LCD backlight, from lights.c. -/
def LCD_FILE : String := "/sys/class/leds/lcd-backlight/brightness"

/-- Control-file path for the button backlight, from lights.c. -/
def BUTTONS_FILE : String := "/sys/class/misc/melfas_touchkey/brightness"

/-- Path of the persisted touch-light preference flag read by load_settings. -/
def DISABLE_TOUCHLIGHT_PATH : String := "/data/.disable_touchlight"

/-- Initial value of the g_enable_touchlight global in lights.c. -/
def g_enable_touchlight_init : Int := -1

/-- Observable side effects of the lights code: an attempt to open and read
the preference flag file, and a write_int call on a control file. -/
inductive LAction where
  | readFlagFile (path : String)
  | writeIntCall (path : String) (value : Int)
deriving DecidableEq

/-- load_settings from lights.c.  `flag = none` models fopen of the flag file
failing (file absent); `some c` models the fgetc result on its first byte
(49 is the character code of the digit one, EOF would be -1).  Returns the
new value of g_enable_touchlight and the actions performed. -/
def load_settings (flag : Option Int) : Int × List LAction :=
  match flag with
  | none => (1, [LAction.readFlagFile DISABLE_TOUCHLIGHT_PATH])
  | some c => (if c = 49 then 0 else 1, [LAction.readFlagFile DISABLE_TOUCHLIGHT_PATH])

/-- rgb_to_brightness from lights.c: mask the color to its low 24 bits and
apply the 77/150/29 luma weighting, right-shifted by 8. -/
def rgb_to_brightness (color : Nat) : Nat :=
  let c := color % 2 ^ 24
  (77 * (c / 2 ^ 16 % 256) + 150 * (c / 2 ^ 8 % 256) + 29 * (c % 256)) / 2 ^ 8

/-- set_light_backlight from lights.c: loads the settings, derives the
brightness from the color, and writes it to the LCD file.  `wres` is the
oracle result of the write_int call.  Returns (result, new value of
g_enable_touchlight, actions in order). -/
def set_light_backlight (flag : Option Int) (color : Nat) (wres : Int) :
    Int × Int × List LAction :=
  let g := load_settings flag
  let brightness := rgb_to_brightness color
  (wres, g.1, g.2 ++ [LAction.writeIntCall LCD_FILE (brightness : Int)])

/-- set_light_buttons from lights.c: derives the touch-led control value from
the color's low 24 bits and writes it to the buttons file unless the cached
preference `g` (the global g_enable_touchlight) is a loaded "disabled" value;
the write happens when `g = -1` (settings never loaded) or `g > 0`.  `wres` is
the oracle result of the write_int call.  Returns (result, actions). -/
def set_light_buttons (g : Int) (color : Nat) (wres : Int) : Int × List LAction :=
  let touch_led_control : Int := if color % 2 ^ 24 ≠ 0 then 1 else 2
  if g = -1 ∨ 0 < g then (wres, [LAction.writeIntCall BUTTONS_FILE touch_led_control])
  else (0, [])

/-- Outcome oracle for one open-write-close sequence in write_int/write_str:
whether the open succeeded, whether the write succeeded, and the errno
observed on the failing step. -/
structure FileOp where
  openOk : Bool
  writeOk : Bool
  errno : Nat
deriving DecidableEq

/-- write_int from lights.c.  `warned` is the function's static already_warned
flag on entry.  Returns (result, already_warned after the call, whether a
warning was logged by this call). -/
def write_int (warned : Bool) (op : FileOp) (path : String) (value : Int) :
    Int × Bool × Bool :=
  if op.openOk then
    (if op.writeOk then 0 else -(op.errno : Int), warned, false)
  else
    (-(op.errno : Int), true, !warned)

/-- write_str from lights.c; identical control flow to write_int with its own
independent already_warned static. -/
def write_str (warned : Bool) (op : FileOp) (path : String) (str : String) :
    Int × Bool × Bool :=
  if op.openOk then
    (if op.writeOk then 0 else -(op.errno : Int), warned, false)
  else
    (-(op.errno : Int), true, !warned)

/-- A sequence of write_int calls threading the static already_warned flag;
yields each call's (result, logged-a-warning) pair. -/
def runWriteInt (warned : Bool) : List (FileOp × String × Int) → List (Int × Bool)
  | [] => []
  | (op, p, v) :: rest =>
    let r := write_int warned op p v
    (r.1, r.2.2) :: runWriteInt r.2.1 rest

/-- Paths for which a sequence of write_int calls emits a warning log line,
in order of emission. -/
def writeIntLogs (warned : Bool) : List (FileOp × String × Int) → List String
  | [] => []
  | (op, p, v) :: rest =>
    let r := write_int warned op p v
    (if r.2.2 then [p] else []) ++ writeIntLogs r.2.1 rest

/-- A sequence of write_str calls threading its static already_warned flag. -/
def runWriteStr (warned : Bool) : List (FileOp × String × String) → List (Int × Bool)
  | [] => []
  | (op, p, v) :: rest =>
    let r := write_str warned op p v
    (r.1, r.2.2) :: runWriteStr r.2.1 rest

/-- Paths for which a sequence of write_str calls emits a warning log line. -/
def writeStrLogs (warned : Bool) : List (FileOp × String × String) → List String
  | [] => []
  | (op, p, v) :: rest =>
    let r := write_str warned op p v
    (if r.2.2 then [p] else []) ++ writeStrLogs r.2.1 rest

/-- The behavior claim C7 asserts of set_light_buttons: every call reads the
preference flag file before its write, performs the button write iff the file
is absent or its first character is not the digit one, and skips the write
returning 0 when the first character is the digit one. -/
def buttonsClaimedBehavior : Prop :=
  ∀ (g : Int) (flag : Option Int) (color : Nat) (wres : Int),
    LAction.readFlagFile DISABLE_TOUCHLIGHT_PATH ∈ (set_light_buttons g color wres).2 ∧
    ((∃ v, LAction.writeIntCall BUTTONS_FILE v ∈ (set_light_buttons g color wres).2) ↔
      (flag = none ∨ ∀ c, flag = some c → c ≠ 49)) ∧
    (flag = some 49 → (set_light_buttons g color wres).1 = 0 ∧
      (set_light_buttons g color wres).2 = [])

/-- The behavior claim C8 asserts of the warning suppression: the first failed
open of each distinct path emits a warning, so every path with some failed
open appears in the log. -/
def perPathWarnClaim : Prop :=
  ∀ (calls : List (FileOp × String × Int)) (p : String),
    (∃ c ∈ calls, c.2.1 = p ∧ c.1.openOk = false) → p ∈ writeIntLogs false calls

/-- Once already_warned is set, a write_int call sequence logs nothing more. -/
theorem writeIntLogs_of_warned (calls : List (FileOp × String × Int)) :
    writeIntLogs true calls = [] := by
  induction calls with
  | nil => rfl
  | cons c rest ih =>
    obtain ⟨op, p, v⟩ := c
    simp only [writeIntLogs, write_int]
    split <;> simpa using ih

/-- Once already_warned is set, a write_str call sequence logs nothing more. -/
theorem writeStrLogs_of_warned (calls : List (FileOp × String × String)) :
    writeStrLogs true calls = [] := by
  induction calls with
  | nil => rfl
  | cons c rest ih =>
    obtain ⟨op, p, v⟩ := c
    simp only [writeStrLogs, write_str]
    split <;> simpa using ih

/-- The log of a write_int sequence started with a clear already_warned flag
is exactly the path of the first call whose open failed, if any. -/
theorem writeIntLogs_eq (calls : List (FileOp × String × Int)) :
    writeIntLogs false calls =
      ((calls.find? fun c => !c.1.openOk).map fun c => c.2.1).toList := by
  induction calls with
  | nil => rfl
  | cons c rest ih =>
    obtain ⟨op, p, v⟩ := c
    by_cases hop : op.openOk
    · simp [writeIntLogs, write_int, hop, List.find?, ih]
    · simp [writeIntLogs, write_int, hop, List.find?, writeIntLogs_of_warned]

/-- The log of a write_str sequence started with a clear already_warned flag
is exactly the path of the first call whose open failed, if any. -/
theorem writeStrLogs_eq (calls : List (FileOp × String × String)) :
    writeStrLogs false calls =
      ((calls.find? fun c => !c.1.openOk).map fun c => c.2.1).toList := by
  induction calls with
  | nil => rfl
  | cons c rest ih =>
    obtain ⟨op, p, v⟩ := c
    by_cases hop : op.openOk
    · simp [writeStrLogs, write_str, hop, List.find?, ih]
    · simp [writeStrLogs, write_str, hop, List.find?, writeStrLogs_of_warned]

/-- Each write_int call's result is independent of the warning flag: 0 on
success, negated errno on a failed open or a failed write. -/
theorem runWriteInt_results (warned : Bool) (calls : List (FileOp × String × Int)) :
    (runWriteInt warned calls).map Prod.fst = calls.map fun c =>
      if c.1.openOk then (if c.1.writeOk then 0 else -(c.1.errno : Int))
      else -(c.1.errno : Int) := by
  induction calls generalizing warned with
  | nil => rfl
  | cons c rest ih =>
    obtain ⟨op, p, v⟩ := c
    by_cases hop : op.openOk <;>
      simp [runWriteInt, write_int, hop, ih]

/-- Each write_str call's result is independent of the warning flag. -/
theorem runWriteStr_results (warned : Bool) (calls : List (FileOp × String × String)) :
    (runWriteStr warned calls).map Prod.fst = calls.map fun c =>
      if c.1.openOk then (if c.1.writeOk then 0 else -(c.1.errno : Int))
      else -(c.1.errno : Int) := by
  induction calls generalizing warned with
  | nil => rfl
  | cons c rest ih =>
    obtain ⟨op, p, v⟩ := c
    by_cases hop : op.openOk <;>
      simp [runWriteStr, write_str, hop, ih]

/-- C9: for every light state the brightness written to the LCD file by
set_light_backlight is the 77/150/29 luma of the low 24 bits of the color,
right-shifted by 8, with the alpha byte ignored; the four cited colors yield
76, 149, 28 and 255. -/
theorem C9_backlight_luma :
    (∀ flag color wres, LAction.writeIntCall LCD_FILE (rgb_to_brightness color : Int) ∈
        (set_light_backlight flag color wres).2.2) ∧
    (∀ color : Nat, rgb_to_brightness color =
        (77 * (color / 2 ^ 16 % 2 ^ 8) + 150 * (color / 2 ^ 8 % 2 ^ 8) +
          29 * (color % 2 ^ 8)) / 2 ^ 8) ∧
    (∀ alpha color : Nat, color < 2 ^ 24 →
        rgb_to_brightness (alpha * 2 ^ 24 + color) = rgb_to_brightness color) ∧
    rgb_to_brightness 0x00FF0000 = 76 ∧ rgb_to_brightness 0x0000FF00 = 149 ∧
    rgb_to_brightness 0x000000FF = 28 ∧ rgb_to_brightness 0x00FFFFFF = 255 := by
  refine ⟨?_, ?_, ?_, by decide, by decide, by decide, by decide⟩
  · intro flag color wres
    cases flag <;> simp [set_light_backlight, load_settings]
  · intro color
    simp only [rgb_to_brightness]
    omega
  · intro alpha color h
    simp only [rgb_to_brightness]
    omega

/-- Witness for the alpha-ignoring part of C9 at color 0xFFFF0000: the alpha
byte 0xFF does not change the brightness of pure red. -/
theorem C9_backlight_luma_witness :
    rgb_to_brightness (0xFF * 2 ^ 24 + 0x00FF0000) = rgb_to_brightness 0x00FF0000 :=
  C9_backlight_luma.2.2.1 0xFF 0x00FF0000 (by decide)

/-- C7 as stated is false: set_light_buttons never reads the preference flag
file, and in the initial state (g_enable_touchlight = -1, before any
set_light_backlight call has loaded the settings) it performs the button
write and forwards the write result even when the flag file's first
character is the digit one. -/
theorem C7_counterexample : ¬ buttonsClaimedBehavior := by
  intro h
  have h1 := (h g_enable_touchlight_init (some 49) 0 0).2.2 rfl
  exact absurd h1.2 (by decide)

/-- C7 amended: set_light_buttons does not read the flag file; it gates the
button write on the cached g_enable_touchlight value, writing iff that cache
is -1 (settings never loaded) or positive, and returning 0 without writing
only when a previous load_settings - invoked by set_light_backlight, which
is where the flag file is read - observed a first character equal to the
digit one (an absent file enables the write). -/
theorem C7_touchlight_gate (g : Int) (color : Nat) (wres : Int) :
    (LAction.readFlagFile DISABLE_TOUCHLIGHT_PATH ∉ (set_light_buttons g color wres).2) ∧
    ((set_light_buttons g color wres).2 ≠ [] ↔ (g = -1 ∨ 0 < g)) ∧
    (g = 0 → set_light_buttons g color wres = (0, [])) ∧
    (load_settings (some 49)).1 = 0 ∧ (load_settings none).1 = 1 ∧
    (∀ flag wres2,
      (set_light_buttons (set_light_backlight flag color wres2).2.1 color wres).2 = []
        ↔ flag = some 49) := by
  refine ⟨?_, ?_, ?_, by decide, by decide, ?_⟩
  · by_cases hg : g = -1 ∨ 0 < g <;> simp [set_light_buttons, hg]
  · by_cases hg : g = -1 ∨ 0 < g <;> simp [set_light_buttons, hg]
  · intro hg
    simp [set_light_buttons, hg]
  · intro flag wres2
    cases flag with
    | none => simp [set_light_buttons, set_light_backlight, load_settings]
    | some c =>
      by_cases hc : c = 49 <;>
        simp [set_light_buttons, set_light_backlight, load_settings, hc]

/-- Witness for C7's amended claim: with the cache at 0 (flag seen as the
digit one) the write is skipped, and a buttons call right after a backlight
call that read a flag file starting with the digit one also skips it. -/
theorem C7_touchlight_gate_witness :
    set_light_buttons 0 0 0 = (0, []) ∧
    ((set_light_buttons (set_light_backlight (some 49) 0 0).2.1 0 0).2 = []) :=
  ⟨(C7_touchlight_gate 0 0 0).2.2.1 rfl,
   ((C7_touchlight_gate 0 0 0).2.2.2.2.2 (some 49) 0).mpr rfl⟩

/-- C8 as stated is false: the warning suppression flag is a per-function
static, so after a failed open of one path has logged, the first failed open
of a different path logs nothing. -/
theorem C8_counterexample : ¬ perPathWarnClaim := by
  intro h
  have h1 := h [(⟨false, true, 13⟩, "a", 0), (⟨false, true, 13⟩, "b", 0)] "b"
    ⟨(⟨false, true, 13⟩, "b", 0), by simp, rfl, rfl⟩
  revert h1
  decide

/-- C8 amended: a failed open in write_int or write_str returns the negated
errno on every call, but the open-failure warning is logged once per
function, not once per path: across a call sequence at most one warning is
emitted, for the path of the first call whose open failed (write_str keeps
its own independent flag). -/
theorem C8_warn_once_per_function (calls : List (FileOp × String × Int))
    (scalls : List (FileOp × String × String)) :
    (runWriteInt false calls).map Prod.fst = (calls.map fun c =>
      if c.1.openOk then (if c.1.writeOk then 0 else -(c.1.errno : Int))
      else -(c.1.errno : Int)) ∧
    writeIntLogs false calls =
      ((calls.find? fun c => !c.1.openOk).map fun c => c.2.1).toList ∧
    (writeIntLogs false calls).length ≤ 1 ∧
    (runWriteStr false scalls).map Prod.fst = (scalls.map fun c =>
      if c.1.openOk then (if c.1.writeOk then 0 else -(c.1.errno : Int))
      else -(c.1.errno : Int)) ∧
    writeStrLogs false scalls =
      ((scalls.find? fun c => !c.1.openOk).map fun c => c.2.1).toList ∧
    (writeStrLogs false scalls).length ≤ 1 := by
  refine ⟨runWriteInt_results false calls, writeIntLogs_eq calls, ?_,
    runWriteStr_results false scalls, writeStrLogs_eq scalls, ?_⟩
  · rw [writeIntLogs_eq]
    cases calls.find? fun c => !c.1.openOk <;> simp
  · rw [writeStrLogs_eq]
    cases scalls.find? fun c => !c.1.openOk <;> simp

end Lights

namespace Sensors

/-- Modelled from the spec: the logical sensor identifiers ID_A, ID_M, ID_O,
ID_L, ID_P, ID_GY and ID_SM are declared in sensors.h, which is not among the
given sources; their values follow the handle macros
SENSORS_ACCELERATION_HANDLE .. SENSORS_SIGNIFICANT_MOTION_HANDLE (0..6) in
sensors.cpp that these identifiers index. -/
def ID_A : Int := 0

/-- Magnetic-field identifier, see `ID_A`. -/
def ID_M : Int := 1

/-- Orientation identifier, see `ID_A`. -/
def ID_O : Int := 2

/-- Light identifier, see `ID_A`. -/
def ID_L : Int := 3

/-- Proximity identifier, see `ID_A`. -/
def ID_P : Int := 4

/-- Gyroscope identifier, see `ID_A`. -/
def ID_GY : Int := 5

/-- Significant-motion identifier, see `ID_A`. -/
def ID_SM : Int := 6

/-- Driver slot index for the light driver, from the private enum in
sensors_poll_context_t. -/
def light : Int := 0

/-- Driver slot index for the proximity driver. -/
def proximity : Int := 1

/-- Driver slot index for the akm composite driver. -/
def akm : Int := 2

/-- Driver slot index for the gyroscope driver. -/
def gyro : Int := 3

/-- Linux errno value for an invalid argument. -/
def EINVAL : Int := 22

/-- The sentinel byte written to the wake pipe (WAKE_MESSAGE in sensors.cpp). -/
def WAKE_MESSAGE : Char := 'W'

/-- handleToDriver from sensors.cpp: routes a logical handle to a driver slot
index, or -EINVAL for a handle outside the declared set. -/
def handleToDriver (handle : Int) : Int :=
  if handle = ID_A ∨ handle = ID_M ∨ handle = ID_O ∨ handle = ID_SM then akm
  else if handle = ID_P then proximity
  else if handle = ID_L then light
  else if handle = ID_GY then gyro
  else -EINVAL

/-- Observable side effects of the multiplexer control operations: a usleep,
a driver enable/setDelay/batch/flush call, and a write to the wake pipe. -/
inductive DAction where
  | sleepUs (us : Nat)
  | enableCall (driver handle enabled : Int)
  | setDelayCall (driver handle : Int) (ns : Int)
  | batchCall (driver handle flags period latency : Int)
  | flushCall (driver handle : Int)
  | wakeWrite (c : Char)
deriving DecidableEq

/-- activate from sensors.cpp.  `enableErr` is the oracle result of the
driver's enable call.  Returns (result, actions in program order). -/
def activate (enableErr : Int) (handle enabled : Int) : Int × List DAction :=
  let index := handleToDriver handle
  if index < 0 then (index, [])
  else
    let pre : List DAction :=
      if index = gyro ∧ enabled = 0 then [DAction.sleepUs (200 * 1000)] else []
    let err := enableErr
    if enabled ≠ 0 ∧ err = 0 then
      (err, pre ++ [DAction.enableCall index handle enabled, DAction.wakeWrite WAKE_MESSAGE])
    else
      (err, pre ++ [DAction.enableCall index handle enabled])

/-- setDelay from sensors.cpp; `drvRes` is the oracle result of the driver
call. -/
def setDelay (drvRes : Int) (handle ns : Int) : Int × List DAction :=
  let index := handleToDriver handle
  if index < 0 then (index, [])
  else (drvRes, [DAction.setDelayCall index handle ns])

/-- batch from sensors.cpp; `drvRes` is the oracle result of the driver
call. -/
def batch (drvRes : Int) (handle flags period latency : Int) : Int × List DAction :=
  let index := handleToDriver handle
  if index < 0 then (index, [])
  else (drvRes, [DAction.batchCall index handle flags period latency])

/-- flush from sensors.cpp; `drvRes` is the oracle result of the driver
call. -/
def flush (drvRes : Int) (handle : Int) : Int × List DAction :=
  let index := handleToDriver handle
  if index < 0 then (index, [])
  else (drvRes, [DAction.flushCall index handle])

/-- The mutable state a pollEvents call works on: the POLLIN readiness bits of
the four driver pollfds and of the wake pollfd, the remaining capacity
`count`, the accumulated event count `nbEvents`, the number of events written
into the caller's buffer so far, and the trace of readEvents calls made
(iteration, driver slot, count passed). -/
structure PollState where
  revents : List Bool
  wakeRevents : Bool
  count : Int
  nbEvents : Int
  written : Nat
  reads : List (Nat × Nat × Int)
deriving DecidableEq

/-- Environment oracle for one pollEvents call: per outer iteration `t` and
driver slot `i`, the driver's hasPendingEvents flag, the result of
readEvents given the remaining count, and the outcome of the poll(2) wait
(its return value, the errno on failure, and the POLLIN bits it reports for
each driver and for the wake pipe). -/
structure SensorEnv where
  pending : Nat → Nat → Bool
  readNb : Nat → Nat → Int → Int
  pollRes : Nat → Int
  pollErrno : Nat → Nat
  pollRevents : Nat → Nat → Bool
  pollWake : Nat → Bool

/-- One driver visit of the drain loop in pollEvents: while capacity remains,
a driver whose readiness bit or pending flag is set is read; a read returning
fewer events than requested clears the readiness bit; count, nbEvents and the
data pointer advance by the returned count. -/
def drainStep (env : SensorEnv) (t i : Nat) (s : PollState) : PollState :=
  if s.count ≠ 0 ∧ (s.revents.getD i false = true ∨ env.pending t i = true) then
    let nb := env.readNb t i s.count
    { s with
      revents := if nb < s.count then s.revents.set i false else s.revents,
      count := s.count - nb,
      nbEvents := s.nbEvents + nb,
      written := s.written + nb.toNat,
      reads := s.reads ++ [(t, i, s.count)] }
  else s

/-- The complete drain phase of one outer iteration: the four driver slots
visited in fixed priority order. -/
def drain (env : SensorEnv) (t : Nat) (s : PollState) : PollState :=
  drainStep env t 3 (drainStep env t 2 (drainStep env t 1 (drainStep env t 0 s)))

/-- Effect of a successful poll(2) wait followed by the wake-pipe check: the
kernel rewrites every revents field with what it observed, and if the wake
read end is ready one byte is consumed and its bit cleared. -/
def afterPoll (env : SensorEnv) (t : Nat) (s : PollState) : PollState :=
  let s1 := { s with
    revents := [env.pollRevents t 0, env.pollRevents t 1,
                env.pollRevents t 2, env.pollRevents t 3],
    wakeRevents := env.pollWake t }
  if s1.wakeRevents then { s1 with wakeRevents := false } else s1

/-- The do/while loop of pollEvents, with `fuel` bounding the number of outer
iterations (none = fuel exhausted).  Returns the call's return value, the
total number of events written into the caller's buffer, and the trace of
(nbEvents at the wait, timeout used) for each poll(2) wait performed. -/
def pollLoop (env : SensorEnv) (fuel : Nat) (t : Nat) (s : PollState) :
    Option (Int × Nat × List (Int × Int)) :=
  match fuel with
  | 0 => none
  | fuel + 1 =>
    let s1 := drain env t s
    if s1.count = 0 then some (s1.nbEvents, s1.written, [])
    else
      let timeout : Int := if s1.nbEvents ≠ 0 then 0 else -1
      let n := env.pollRes t
      if n < 0 then some (-(env.pollErrno t : Int), s1.written, [(s1.nbEvents, timeout)])
      else
        let s2 := afterPoll env t s1
        if n = 0 then some (s2.nbEvents, s2.written, [(s1.nbEvents, timeout)])
        else
          match pollLoop env fuel (t + 1) s2 with
          | none => none
          | some (r, w, waits) => some (r, w, (s1.nbEvents, timeout) :: waits)

/-- The state a pollEvents call starts from: `revents0` are the driver
readiness bits left over from the previous call (all cleared at construction),
`count` the caller's capacity. -/
def initState (revents0 : List Bool) (count : Int) : PollState :=
  { revents := revents0, wakeRevents := false, count := count,
    nbEvents := 0, written := 0, reads := [] }

/-- pollEvents from sensors.cpp, for a single call. -/
def pollEvents (env : SensorEnv) (fuel : Nat) (revents0 : List Bool) (count : Int) :
    Option (Int × Nat × List (Int × Int)) :=
  pollLoop env fuel 0 (initState revents0 count)

/-- The precondition of claim C1 on the driver sources: readEvents, asked for
`c > 0` events, reports a nonnegative number of events not exceeding `c`. -/
def ReadsBounded (env : SensorEnv) : Prop :=
  ∀ t i c, 0 < c → 0 ≤ env.readNb t i c ∧ env.readNb t i c ≤ c

/-- Invariant of a pollEvents call with capacity `C`: the remaining count
stays nonnegative, the accumulated event count is nonnegative, count and
nbEvents always sum to the capacity, and the number of events written to the
caller's buffer equals the accumulated count. -/
def PollInv (C : Int) (s : PollState) : Prop :=
  0 ≤ s.count ∧ 0 ≤ s.nbEvents ∧ s.nbEvents + s.count = C ∧ (s.written : Int) = s.nbEvents

/-- C2: handleToDriver maps the aliased identifiers ID_A, ID_M, ID_O and
ID_SM to the akm slot, ID_P to proximity, ID_L to light and ID_GY to gyro;
every handle outside the declared set yields -EINVAL, and activate, setDelay,
batch and flush return that -EINVAL unchanged without any driver call. -/
theorem C2_handle_routing :
    handleToDriver ID_A = akm ∧ handleToDriver ID_M = akm ∧
    handleToDriver ID_O = akm ∧ handleToDriver ID_SM = akm ∧
    handleToDriver ID_P = proximity ∧ handleToDriver ID_L = light ∧
    handleToDriver ID_GY = gyro ∧
    ∀ h : Int, h ∉ ([ID_A, ID_M, ID_O, ID_SM, ID_P, ID_L, ID_GY] : List Int) →
      handleToDriver h = -EINVAL ∧
      (∀ e en, activate e h en = (-EINVAL, [])) ∧
      (∀ r ns, setDelay r h ns = (-EINVAL, [])) ∧
      (∀ r fl p l, batch r h fl p l = (-EINVAL, [])) ∧
      (∀ r, flush r h = (-EINVAL, [])) := by
  refine ⟨by decide, by decide, by decide, by decide, by decide, by decide, by decide, ?_⟩
  intro h hm
  simp only [List.mem_cons, List.not_mem_nil, or_false, not_or,
    ID_A, ID_M, ID_O, ID_SM, ID_P, ID_L, ID_GY] at hm
  obtain ⟨h0, h1, h2, h6, h4, h3, h5⟩ := hm
  have hd : handleToDriver h = -EINVAL := by
    simp [handleToDriver, ID_A, ID_M, ID_O, ID_SM, ID_P, ID_L, ID_GY,
      h0, h1, h2, h3, h4, h5, h6]
  have hneg : handleToDriver h < 0 := by rw [hd]; decide
  refine ⟨hd, ?_, ?_, ?_, ?_⟩ <;> intros <;>
    simp [activate, setDelay, batch, flush, hd, EINVAL]

/-- Witness for C2 at the undeclared handle 7: the router and all four
multiplexer operations reject it with -EINVAL and an empty driver trace. -/
theorem C2_handle_routing_witness :
    handleToDriver 7 = -EINVAL ∧ activate 0 7 1 = (-EINVAL, []) ∧
    setDelay 0 7 0 = (-EINVAL, []) ∧ batch 0 7 0 0 0 = (-EINVAL, []) ∧
    flush 0 7 = (-EINVAL, []) :=
  have hr := C2_handle_routing.2.2.2.2.2.2.2 7 (by decide)
  ⟨hr.1, hr.2.1 0 1, hr.2.2.1 0 0, hr.2.2.2.1 0 0 0 0, hr.2.2.2.2 0⟩

/-- C4: for a handle that resolves to a driver, activate returns the driver's
enable result unchanged and writes exactly one W byte to the wake pipe iff
the request was an enable (nonzero) and the driver returned success; every
wake-pipe write carries the sentinel byte. -/
theorem C4_wake_signal (e h en : Int) (hv : 0 ≤ handleToDriver h) :
    (activate e h en).1 = e ∧
    (activate e h en).2.count (DAction.wakeWrite WAKE_MESSAGE) =
      (if en ≠ 0 ∧ e = 0 then 1 else 0) ∧
    ∀ c, DAction.wakeWrite c ∈ (activate e h en).2 → c = WAKE_MESSAGE := by
  have hnlt : ¬ handleToDriver h < 0 := not_lt.mpr hv
  by_cases hc : en ≠ 0 ∧ e = 0
  · have hpre : ¬ (handleToDriver h = gyro ∧ en = 0) := fun hp => hc.1 hp.2
    refine ⟨?_, ?_, ?_⟩
    · simp [activate, hnlt, hc, hpre]
    · simp [activate, hnlt, hc, hpre, List.count_cons]
    · intro c hmem
      simp [activate, hnlt, hc, hpre] at hmem
      exact hmem
  · refine ⟨?_, ?_, ?_⟩
    · by_cases hp : handleToDriver h = gyro ∧ en = 0 <;>
        simp [activate, hnlt, hc, hp, gyro]
    · by_cases hp : handleToDriver h = gyro ∧ en = 0
      · simp [activate, hnlt, hc, hp, gyro, List.count_cons]
      · simp [activate, hnlt, hc, hp, List.count_cons]
    · intro c hmem
      by_cases hp : handleToDriver h = gyro ∧ en = 0 <;>
        simp [activate, hnlt, hc, hp, gyro] at hmem

/-- Witness for C4 at a successful enable of the proximity sensor: the 0
result is forwarded and one wake byte is counted. -/
theorem C4_wake_signal_witness :
    (activate 0 ID_P 1).1 = 0 ∧
    (activate 0 ID_P 1).2.count (DAction.wakeWrite WAKE_MESSAGE) =
      (if (1 : Int) ≠ 0 ∧ (0 : Int) = 0 then 1 else 0) :=
  ⟨(C4_wake_signal 0 ID_P 1 (by decide)).1, (C4_wake_signal 0 ID_P 1 (by decide)).2.1⟩

/-- C5: activate sleeps for the fixed 200 ms settle interval exactly when the
handle resolves to the gyroscope driver and the request is a disable, and in
that case the action trace is the sleep followed directly by the driver's
disable call - the sleep happens strictly before the disable and nothing
else. -/
theorem C5_gyro_settle (e h en : Int) :
    (DAction.sleepUs (200 * 1000) ∈ (activate e h en).2 ↔
      handleToDriver h = gyro ∧ en = 0) ∧
    (handleToDriver h = gyro → en = 0 →
      (activate e h en).2 = [DAction.sleepUs (200 * 1000), DAction.enableCall gyro h 0]) := by
  constructor
  · by_cases hlt : handleToDriver h < 0
    · have hng : ¬ handleToDriver h = gyro := by
        intro hg; rw [hg] at hlt; exact absurd hlt (by decide)
      simp [activate, hlt, hng]
    · by_cases hp : handleToDriver h = gyro ∧ en = 0
      · by_cases hc : en ≠ 0 ∧ e = 0 <;> simp [activate, hlt, hp, hc, gyro]
      · by_cases hc : en ≠ 0 ∧ e = 0 <;> simp [activate, hlt, hp, hc, gyro]
  · intro hg hen
    have hnlt : ¬ handleToDriver h < 0 := by rw [hg]; decide
    have hc : ¬ (en ≠ 0 ∧ e = 0) := fun hx => hx.1 hen
    simp [activate, hnlt, hg, hen, hc, gyro]

/-- Witness for C5 at activate(ID_GY, 0): the trace is the 200 ms sleep
followed by the gyro driver's disable call. -/
theorem C5_gyro_settle_witness :
    (activate 7 ID_GY 0).2 =
      [DAction.sleepUs (200 * 1000), DAction.enableCall gyro ID_GY 0] :=
  (C5_gyro_settle 7 ID_GY 0).2 (by decide) rfl

/-- One drain visit preserves the poll invariant and never decreases the
accumulated event count. -/
theorem drainStep_inv (env : SensorEnv) (hrb : ReadsBounded env) (t i : Nat)
    (C : Int) (s : PollState) (h : PollInv C s) :
    PollInv C (drainStep env t i s) ∧ s.nbEvents ≤ (drainStep env t i s).nbEvents := by
  obtain ⟨h1, h2, h3, h4⟩ := h
  unfold drainStep
  split
  · rename_i hcond
    have hpos : 0 < s.count := lt_of_le_of_ne h1 (Ne.symm hcond.1)
    obtain ⟨hnb0, hnbc⟩ := hrb t i s.count hpos
    unfold PollInv
    dsimp only
    refine ⟨⟨by omega, by omega, by omega, by omega⟩, by omega⟩
  · exact ⟨⟨h1, h2, h3, h4⟩, le_refl _⟩

/-- The whole drain phase preserves the poll invariant and never decreases
the accumulated event count. -/
theorem drain_inv (env : SensorEnv) (hrb : ReadsBounded env) (t : Nat)
    (C : Int) (s : PollState) (h : PollInv C s) :
    PollInv C (drain env t s) ∧ s.nbEvents ≤ (drain env t s).nbEvents := by
  have a := drainStep_inv env hrb t 0 C s h
  have b := drainStep_inv env hrb t 1 C _ a.1
  have c := drainStep_inv env hrb t 2 C _ b.1
  have d := drainStep_inv env hrb t 3 C _ c.1
  exact ⟨d.1, le_trans a.2 (le_trans b.2 (le_trans c.2 d.2))⟩

/-- The wait bookkeeping only touches the readiness bits: invariant, count,
accumulated events and written events are unchanged. -/
theorem afterPoll_inv (env : SensorEnv) (t : Nat) (C : Int) (s : PollState)
    (h : PollInv C s) :
    PollInv C (afterPoll env t s) ∧ (afterPoll env t s).nbEvents = s.nbEvents ∧
      (afterPoll env t s).count = s.count ∧ (afterPoll env t s).written = s.written := by
  simp only [afterPoll]
  split <;> exact ⟨h, rfl, rfl, rfl⟩

/-- Combined loop invariant for pollLoop: from a state satisfying the poll
invariant for capacity C, a terminating run returns at most C, writes at most
C events, and its wait trace pairs a zero timeout exactly with a nonzero
accumulated count, that count being nonnegative and monotone along the
trace. -/
theorem pollLoop_spec (env : SensorEnv) (hrb : ReadsBounded env) (fuel : Nat) :
    ∀ (t : Nat) (C : Int) (s : PollState) (res : Int × Nat × List (Int × Int)),
      PollInv C s → pollLoop env fuel t s = some res →
      res.1 ≤ C ∧ (res.2.1 : Int) ≤ C ∧
      (∀ e ∈ res.2.2, e.2 = (if e.1 = 0 then (-1 : Int) else 0) ∧
        s.nbEvents ≤ e.1 ∧ 0 ≤ e.1) ∧
      res.2.2.Pairwise (fun a b => a.1 ≤ b.1) := by
  induction fuel with
  | zero => intro t C s res hinv h; simp [pollLoop] at h
  | succ fuel ih =>
    intro t C s res hinv h
    simp only [pollLoop] at h
    have hinv1 := (drain_inv env hrb t C s hinv).1
    have hmono1 := (drain_inv env hrb t C s hinv).2
    obtain ⟨i1, i2, i3, i4⟩ := hinv1
    by_cases h0 : (drain env t s).count = 0
    · rw [if_pos h0] at h
      injection h with h
      subst h
      dsimp only
      exact ⟨by omega, by omega, by simp, by simp⟩
    · rw [if_neg h0] at h
      by_cases hfail : env.pollRes t < 0
      · rw [if_pos hfail] at h
        injection h with h
        subst h
        have herrn : (0 : Int) ≤ (env.pollErrno t : Int) := Int.natCast_nonneg _
        dsimp only
        refine ⟨by omega, by omega, ?_, by simp⟩
        intro e he
        simp only [List.mem_singleton] at he
        subst he
        dsimp only
        refine ⟨?_, hmono1, i2⟩
        by_cases hz : (drain env t s).nbEvents = 0 <;> simp [hz]
      · rw [if_neg hfail] at h
        have hap := afterPoll_inv env t C (drain env t s) ⟨i1, i2, i3, i4⟩
        by_cases hn0 : env.pollRes t = 0
        · rw [if_pos hn0] at h
          injection h with h
          subst h
          dsimp only
          refine ⟨by rw [hap.2.1]; omega, by rw [hap.2.2.2, i4]; omega, ?_, by simp⟩
          intro e he
          simp only [List.mem_singleton] at he
          subst he
          dsimp only
          refine ⟨?_, hmono1, i2⟩
          by_cases hz : (drain env t s).nbEvents = 0 <;> simp [hz]
        · rw [if_neg hn0] at h
          cases hrec : pollLoop env fuel (t + 1) (afterPoll env t (drain env t s)) with
          | none => rw [hrec] at h; exact absurd h (by simp)
          | some val =>
            rw [hrec] at h
            obtain ⟨r, w, waits⟩ := val
            injection h with h
            subst h
            have IH := ih (t + 1) C (afterPoll env t (drain env t s)) (r, w, waits) hap.1 hrec
            dsimp only at IH ⊢
            refine ⟨IH.1, IH.2.1, ?_, ?_⟩
            · intro e he
              rcases List.mem_cons.mp he with he | he
              · subst he
                dsimp only
                refine ⟨?_, hmono1, i2⟩
                by_cases hz : (drain env t s).nbEvents = 0 <;> simp [hz]
              · have h3 := IH.2.2.1 e he
                refine ⟨h3.1, ?_, h3.2.2⟩
                have hx := h3.2.1
                rw [hap.2.1] at hx
                exact le_trans hmono1 hx
            · refine List.Pairwise.cons ?_ IH.2.2.2
              intro e he
              have h3 := IH.2.2.1 e he
              have hx := h3.2.1
              rw [hap.2.1] at hx
              dsimp only
              exact hx

/-- Environment used by the pollEvents witnesses: no pending events, every
read of a positive remaining count returns one event, the wait reports no
ready source (so the loop exits after one iteration). -/
def envB : SensorEnv :=
  { pending := fun _ _ => false,
    readNb := fun _ _ c => if 0 < c then 1 else 0,
    pollRes := fun _ => 0,
    pollErrno := fun _ => 4,
    pollRevents := fun _ _ => false,
    pollWake := fun _ => false }

/-- envB satisfies the readEvents precondition. -/
theorem envB_bounded : ReadsBounded envB := by
  intro t i c hc
  simp only [envB, if_pos hc]
  omega

/-- Environment like envB but whose wait fails with errno 4. -/
def envC : SensorEnv := { envB with pollRes := fun _ => -1 }

/-- envC satisfies the readEvents precondition. -/
theorem envC_bounded : ReadsBounded envC := by
  intro t i c hc
  simp only [envC, envB, if_pos hc]
  omega

/-- The state a pollEvents call starts from satisfies the poll invariant for
its capacity whenever the capacity is nonnegative. -/
theorem initState_inv (revents0 : List Bool) (count : Int) (hc : 0 ≤ count) :
    PollInv count (initState revents0 count) :=
  ⟨hc, le_refl 0, by simp [initState], by simp [initState]⟩

/-- C1: with a capacity of at least 0 and every driver readEvents call
returning between 0 and the count it was asked for, pollEvents never returns
a value greater than the capacity and never writes more than capacity events
into the caller's buffer. -/
theorem C1_poll_capacity (env : SensorEnv) (fuel : Nat) (revents0 : List Bool)
    (count : Int) (res : Int × Nat × List (Int × Int))
    (hrb : ReadsBounded env) (hc : 0 ≤ count)
    (h : pollEvents env fuel revents0 count = some res) :
    res.1 ≤ count ∧ (res.2.1 : Int) ≤ count := by
  have hs := pollLoop_spec env hrb fuel 0 count (initState revents0 count) res
    (initState_inv revents0 count hc) h
  exact ⟨hs.1, hs.2.1⟩

/-- Witness for C1: a concrete one-iteration run returning 1 of 5 events. -/
theorem C1_poll_capacity_witness :
    pollEvents envB 1 [true, false, false, false] 5 = some (1, 1, [(1, 0)]) ∧
    ((1 : Int) ≤ 5 ∧ ((1 : Nat) : Int) ≤ 5) :=
  ⟨by decide, C1_poll_capacity envB 1 [true, false, false, false] 5 (1, 1, [(1, 0)])
    envB_bounded (by norm_num) (by decide)⟩

/-- C3: every wait of a pollEvents call uses the zero timeout when events
have already been accumulated and the infinite timeout -1 when none have;
the accumulated count never decreases from one wait to the next, so once a
wait sees data every subsequent wait is non-blocking. -/
theorem C3_wait_timeouts (env : SensorEnv) (fuel : Nat) (revents0 : List Bool)
    (count : Int) (res : Int × Nat × List (Int × Int))
    (hrb : ReadsBounded env) (hc : 0 ≤ count)
    (h : pollEvents env fuel revents0 count = some res) :
    (∀ e ∈ res.2.2, (0 < e.1 → e.2 = 0) ∧ (e.1 = 0 → e.2 = -1)) ∧
    res.2.2.Pairwise (fun a b => 0 < a.1 → b.2 = 0) := by
  have hs := pollLoop_spec env hrb fuel 0 count (initState revents0 count) res
    (initState_inv revents0 count hc) h
  constructor
  · intro e he
    have h1 := hs.2.2.1 e he
    constructor
    · intro hpos
      rw [h1.1, if_neg (by omega : ¬ e.1 = 0)]
    · intro hz
      rw [h1.1, if_pos hz]
  · refine List.Pairwise.imp_of_mem ?_ hs.2.2.2
    intro a b ha hb hle hpos
    have hb1 := hs.2.2.1 b hb
    rw [hb1.1, if_neg (by omega : ¬ b.1 = 0)]

/-- Witness for C3: in the concrete run, the single wait was taken with one
event accumulated and used the zero timeout. -/
theorem C3_wait_timeouts_witness :
    pollEvents envB 1 [true, false, false, false] 5 = some (1, 1, [(1, 0)]) ∧
    ((0 < (1 : Int) → (0 : Int) = 0) ∧ ((1 : Int) = 0 → (0 : Int) = -1)) :=
  ⟨by decide,
    (C3_wait_timeouts envB 1 [true, false, false, false] 5 (1, 1, [(1, 0)])
      envB_bounded (by norm_num) (by decide)).1 (1, 0) (by decide)⟩

/-- C10: when the wait fails after the drain phase has already copied events,
pollEvents returns the negated errno - a negative value - even though the
copied events are already in the caller's buffer; the accumulated count is
discarded and is not recoverable from the returned value. -/
theorem C10_wait_error_discards (env : SensorEnv) (fuel : Nat) (revents0 : List Bool)
    (count : Int) (hrb : ReadsBounded env) (hc : 0 ≤ count)
    (hfail : env.pollRes 0 < 0) (herr : 0 < env.pollErrno 0)
    (hcnt : (drain env 0 (initState revents0 count)).count ≠ 0)
    (hnb : 0 < (drain env 0 (initState revents0 count)).nbEvents) :
    pollEvents env (fuel + 1) revents0 count =
      some (-(env.pollErrno 0 : Int), (drain env 0 (initState revents0 count)).written,
        [((drain env 0 (initState revents0 count)).nbEvents, 0)]) ∧
    -(env.pollErrno 0 : Int) < 0 ∧
    0 < (drain env 0 (initState revents0 count)).written ∧
    -(env.pollErrno 0 : Int) ≠ (drain env 0 (initState revents0 count)).nbEvents := by
  have hinv1 := (drain_inv env hrb 0 count _ (initState_inv revents0 count hc)).1
  obtain ⟨i1, i2, i3, i4⟩ := hinv1
  refine ⟨?_, by omega, by omega, by omega⟩
  simp only [pollEvents, pollLoop, if_neg hcnt, if_pos hfail]
  rw [if_pos (by omega : (drain env 0 (initState revents0 count)).nbEvents ≠ 0)]

/-- Witness for C10: a concrete run where the wait fails with errno 4 after
one event was drained returns -4 with the one written event discarded from
the count. -/
theorem C10_wait_error_discards_witness :
    pollEvents envC 1 [true, false, false, false] 5 = some (-4, 1, [(1, 0)]) ∧
    (-4 : Int) < 0 ∧ 0 < 1 ∧ (-4 : Int) ≠ 1 :=
  C10_wait_error_discards envC 0 [true, false, false, false] 5 envC_bounded
    (by norm_num) (by decide) (by decide) (by decide) (by decide)

/-- A list-set to false never turns a readiness bit on. -/
theorem getD_set_false (l : List Bool) (i j : Nat) :
    (l.set i false).getD j false = true → l.getD j false = true := by
  induction l generalizing i j with
  | nil => simp [List.set]
  | cons a tl ih =>
    cases i with
    | zero =>
      cases j with
      | zero => simp [List.set, List.getD]
      | succ j => simp [List.set, List.getD]
    | succ i =>
      cases j with
      | zero => simp [List.set, List.getD]
      | succ j =>
        simp only [List.set, List.getD_cons_succ]
        exact ih i j

/-- C6: in a drain visit a driver is read iff capacity remains and its
readiness bit or its pending flag is set, and otherwise the state is
untouched; a read returning fewer events than the remaining capacity clears
the driver's bit while any other read leaves the bits unchanged; the drain
phase never turns a bit on, and after a successful wait the bits are exactly
those the wait reported ready. -/
theorem C6_readiness_bits (env : SensorEnv) (t i : Nat) (s : PollState) :
    ((drainStep env t i s).reads = s.reads ++ [(t, i, s.count)] ↔
      (s.count ≠ 0 ∧ (s.revents.getD i false = true ∨ env.pending t i = true))) ∧
    ((drainStep env t i s).reads = s.reads ++ [(t, i, s.count)] ∨ drainStep env t i s = s) ∧
    (s.count ≠ 0 → (s.revents.getD i false = true ∨ env.pending t i = true) →
      env.readNb t i s.count < s.count →
      (drainStep env t i s).revents = s.revents.set i false) ∧
    (s.count ≠ 0 → (s.revents.getD i false = true ∨ env.pending t i = true) →
      ¬ env.readNb t i s.count < s.count →
      (drainStep env t i s).revents = s.revents) ∧
    (∀ j, (drainStep env t i s).revents.getD j false = true →
      s.revents.getD j false = true) ∧
    (afterPoll env t s).revents = [env.pollRevents t 0, env.pollRevents t 1,
      env.pollRevents t 2, env.pollRevents t 3] := by
  refine ⟨⟨?_, ?_⟩, ?_, ?_, ?_, ?_, ?_⟩
  · intro hr
    by_contra hc
    rw [drainStep, if_neg hc] at hr
    exact absurd hr (by simp)
  · intro hc
    rw [drainStep, if_pos hc]
  · by_cases hc : s.count ≠ 0 ∧ (s.revents.getD i false = true ∨ env.pending t i = true)
    · left; rw [drainStep, if_pos hc]
    · right; rw [drainStep, if_neg hc]
  · intro h1 h2 h3
    rw [drainStep, if_pos ⟨h1, h2⟩]
    dsimp only
    rw [if_pos h3]
  · intro h1 h2 h3
    rw [drainStep, if_pos ⟨h1, h2⟩]
    dsimp only
    rw [if_neg h3]
  · intro j
    by_cases hc : s.count ≠ 0 ∧ (s.revents.getD i false = true ∨ env.pending t i = true)
    · rw [drainStep, if_pos hc]
      dsimp only
      by_cases hlt : env.readNb t i s.count < s.count
      · rw [if_pos hlt]
        exact getD_set_false s.revents i j
      · rw [if_neg hlt]
        exact id
    · rw [drainStep, if_neg hc]
      exact id
  · simp only [afterPoll]
    split <;> rfl

/-- Witness for C6: in the concrete run's first drain visit with readiness
bit set and a short read, the bit is cleared. -/
theorem C6_readiness_bits_witness :
    (drainStep envB 0 0 (initState [true, false, false, false] 5)).revents =
      (initState [true, false, false, false] 5).revents.set 0 false :=
  (C6_readiness_bits envB 0 0 (initState [true, false, false, false] 5)).2.2.1
    (by decide) (by decide) (by decide)

end Sensors
